import Mathlib

/-!
# Verification of the REP socket core of msg-rs

Shallow embedding of `src/msg-socket/src/rep/mod.rs`: the per-peer session
state machine (`PeerState::poll_next`), the backend driver (`RepBackend::poll`),
the frontend handle (`RepSocket`), and the response one-shot plumbing
(`Request::respond` and the join-set task spawned per request).

Modelling conventions:
* `Bytes` is a list of byte values; `u32` request ids are `Nat` (the REP code
  never computes on ids, it only echoes them).
* Async readiness is externalized: each iteration of a poll loop consumes an
  `IterInput` (for the peer session) or a `BackendEvent` (for the backend)
  describing what the underlying pollables returned in that iteration, and the
  loop body is a pure step function on the session / backend state.
* `sent` and `completedLog` on `PeerState` are ghost instrumentation recording,
  in order, the messages accepted by `start_send` (a message moved into a
  failing `start_send` is popped but not recorded: it is lost) and the
  join-set completions pushed onto the egress queue. They alter no control
  flow.
-/

namespace MsgRep

/-- Byte sequences (`bytes::Bytes`). -/
abbrev Bytes := List Nat

/-- Peer addresses (`SocketAddr`), modelled as opaque identifiers. -/
abbrev Addr := Nat

/-- `msg_wire::reqrep::Message`: a (u32 id, payload) pair. -/
structure Message where
  id : Nat
  payload : Bytes
deriving DecidableEq, Repr

/-- `reqrep::Message::new(id, payload)`. -/
def Message.new (id : Nat) (payload : Bytes) : Message :=
  { id := id, payload := payload }

/-- The user-visible `Request` (source address and payload; the one-shot
sender is modelled separately via `RequestOutcome`/`responseTask`). -/
structure Request where
  source : Addr
  msg : Bytes
deriving DecidableEq, Repr

/-- What the user does with a yielded `Request`: call `respond(payload)`
(which sends on the one-shot channel and consumes the request), or drop it
without responding (which drops the one-shot sender). -/
inductive RequestOutcome where
  | responded (payload : Bytes)
  | droppedReq
deriving DecidableEq, Repr

/-- `rx.await.ok()` on the one-shot receiver: `Some(payload)` when the
sender sent before being dropped, `None` when the sender was dropped. -/
def oneshotRecv : RequestOutcome → Option Bytes
  | RequestOutcome.responded p => some p
  | RequestOutcome.droppedReq => none

/-- The task spawned per decoded request:
`async move { rx.await.ok().map(|res| (msg_id, res)) }`. -/
def responseTask (msgId : Nat) (o : RequestOutcome) : Option (Nat × Bytes) :=
  (oneshotRecv o).map (fun res => (msgId, res))

/-- Result of `conn.start_send_unpin(msg)`. -/
inductive SendResult where
  | ok
  | err
deriving DecidableEq, Repr

/-- Result of `pending_requests.poll_join_next(cx)` as matched by the code:
`completed` is `Ready(Some(Ok(Some((id, payload)))))`, `joinErr` is
`Ready(Some(Err(e)))`, `droppedNone` is `Ready(Some(Ok(None)))` (the response
sender was dropped), and `notReady` covers `Ready(None)` and `Pending`
(the code's wildcard arm treats `droppedNone` and `notReady` identically). -/
inductive JoinPoll where
  | completed (id : Nat) (payload : Bytes)
  | joinErr
  | droppedNone
  | notReady
deriving DecidableEq, Repr

/-- Result of `conn.poll_next_unpin(cx)`: a decoded frame
(`Ready(Some(Ok(msg)))`), a decode/read error (`Ready(Some(Err(e)))`),
end of stream (`Ready(None)`), or `Pending`. -/
inductive ConnPoll where
  | frame (id : Nat) (payload : Bytes)
  | decodeErr
  | eof
  | notReady
deriving DecidableEq, Repr

/-- What the underlying pollables return during one iteration of the `loop`
in `PeerState::poll_next`. `flushOk` is the result of
`conn.poll_flush_unpin(cx)`, which the code discards (`let _ = ...`). -/
structure IterInput where
  flushOk : Bool
  writeReady : Bool
  send : SendResult
  join : JoinPoll
  conn : ConnPoll
deriving DecidableEq, Repr

/-- The value `PeerState::poll_next` returns for this call.
`yieldRequest spawnedId req` is `Ready(Some(Ok(request)))`, with the ghost
`spawnedId` recording the `msg_id` captured by the spawned response task;
`yieldErr` is `Ready(Some(Err(e)))` (the `?` on a decode error);
`closed` is `Ready(None)` (the stream ends); `pending` is `Pending`. -/
inductive PollRes where
  | yieldRequest (spawnedId : Nat) (req : Request)
  | yieldErr
  | closed
  | pending
deriving DecidableEq, Repr

/-- The REP peer session state. `pending_requests` (the join set) lives
outside the state: its completions arrive through `IterInput.join`.
`sent` and `completedLog` are ghost traces (see module header). -/
structure PeerState where
  addr : Addr
  egress_queue : List Message
  sent : List Message
  completedLog : List Message
deriving DecidableEq, Repr

/-- A freshly inserted peer session: empty egress queue (`VecDeque::new()`). -/
def PeerState.init (a : Addr) : PeerState :=
  { addr := a, egress_queue := [], sent := [], completedLog := [] }

/-- The tail of a loop iteration after the egress-send block: poll the join
set, then (in the wildcard cases) poll the connection. Returns the updated
state and `none` to `continue` the loop or `some r` to return `r`. -/
def connPollStep (st : PeerState) (inp : IterInput) : PeerState × Option PollRes :=
  match inp.conn with
  | ConnPoll.frame id payload =>
      (st, some (PollRes.yieldRequest id { source := st.addr, msg := payload }))
  | ConnPoll.decodeErr => (st, some PollRes.yieldErr)
  | ConnPoll.eof => (st, some PollRes.closed)
  | ConnPoll.notReady => (st, some PollRes.pending)

/-- Poll the join set (`pending_requests.poll_join_next`): a completion pushes
`Message::new(id, payload)` onto the back of the egress queue and continues;
a join error is logged and continues; `Ok(None)` (dropped response) and
not-ready fall through to polling the connection. -/
def joinPollStep (st : PeerState) (inp : IterInput) : PeerState × Option PollRes :=
  match inp.join with
  | JoinPoll.completed id payload =>
      ({ st with
          egress_queue := st.egress_queue ++ [Message.new id payload],
          completedLog := st.completedLog ++ [Message.new id payload] }, none)
  | JoinPoll.joinErr => (st, none)
  | JoinPoll.droppedNone => connPollStep st inp
  | JoinPoll.notReady => connPollStep st inp

/-- One iteration of the `loop` in `PeerState::poll_next`:
flush (result discarded), then if the sink is ready and the egress queue is
non-empty, pop the front message (`pop_front` precedes the send) and
`start_send` it — `Ok` records it in the wire trace and continues, `Err`
ends the stream with `Ready(None)`, the popped message having been moved
into the failed send and lost; otherwise poll the join set and then the
connection. -/
def stepIter (st : PeerState) (inp : IterInput) : PeerState × Option PollRes :=
  if inp.writeReady then
    match st.egress_queue with
    | msg :: rest =>
      match inp.send with
      | SendResult.ok =>
          ({ st with egress_queue := rest, sent := st.sent ++ [msg] }, none)
      | SendResult.err =>
          ({ st with egress_queue := rest }, some PollRes.closed)
    | [] => joinPollStep st inp
  else joinPollStep st inp

/-- Run the `poll_next` loop over a list of iteration inputs; if the inputs
run out while the loop would continue, report `pending` with the state so
far (the real loop only leaves via a `return`). -/
def runIters : PeerState → List IterInput → PeerState × PollRes
  | st, [] => (st, PollRes.pending)
  | st, inp :: rest =>
    match stepIter st inp with
    | (st', none) => runIters st' rest
    | (st', some r) => (st', r)

/-- The mpsc channel from backend to frontend (`to_socket`). -/
structure Channel where
  capacity : Nat
  queued : List Request
  closed : Bool
deriving DecidableEq, Repr

/-- `tokio::sync::mpsc::Sender::try_send`: fails (returning the message to
the caller) when the receiver is dropped or the buffer is full. -/
def Channel.trySend (ch : Channel) (r : Request) : Channel × Bool :=
  if ch.closed then (ch, false)
  else if ch.queued.length < ch.capacity then
    ({ ch with queued := ch.queued ++ [r] }, true)
  else (ch, false)

/-- `RepOptions` (note: `RepBackend` never receives these options; the
backend step below has no access to them, as in the source). -/
structure RepOptions where
  set_nodelay : Bool
  max_connections : Option Nat
deriving DecidableEq, Repr

/-- `RepOptions::default()`. -/
def RepOptions.standard : RepOptions :=
  { set_nodelay := true, max_connections := none }

/-- An item yielded by a peer stream to the backend
(`Result<Request, RepError>`; the error details are irrelevant to control
flow, the backend only logs them). -/
inductive PeerMsg where
  | ok (request : Request)
  | err
deriving DecidableEq, Repr

/-- What fires during one iteration of the `loop` in `RepBackend::poll`:
`peerItem` is `peer_states.poll_next` yielding `Ready(Some((peer, msg)))`;
`peerClosed` is a peer stream ending — per the source comment on
`peer_states`, the `StreamMap` then silently removes it; `acceptConn` and
`acceptFail` are the two `Ready` arms of `transport.poll_accept`; and
`allPending` is the case in which every pollable is pending. -/
inductive BackendEvent where
  | peerItem (peer : Addr) (msg : PeerMsg)
  | peerClosed (peer : Addr)
  | acceptConn (addr : Addr)
  | acceptFail
  | allPending
deriving DecidableEq, Repr

/-- How a backend iteration ends: `cont` is `continue` (keep polling),
`suspend` is `return Poll::Pending`, and `terminated` stands for returning
`Poll::Ready(..)` — which no path in `RepBackend::poll` ever does. -/
inductive BackendAction where
  | cont
  | suspend
  | terminated
deriving DecidableEq, Repr

/-- The REP backend state: the keys of the `StreamMap` of peers (distinct
addresses), the channel to the frontend, and a ghost trace of requests lost
because `try_send` failed and its result was discarded (`let _ = ...`). -/
structure RepBackend where
  peer_states : List Addr
  to_socket : Channel
  droppedRequests : List Request
deriving DecidableEq, Repr

/-- `StreamMap::insert`: replaces the entry for an existing key, otherwise
adds the key. -/
def insertPeer (m : List Addr) (a : Addr) : List Addr :=
  if a ∈ m then m else m ++ [a]

/-- One iteration of the `loop` in `RepBackend::poll`:
a peer item `Ok(request)` is forwarded with `to_socket.try_send` and the
result is discarded; a peer item `Err(e)` is logged; an ended peer stream is
removed from the map by the `StreamMap`; an accepted connection is inserted
unconditionally (no options are consulted); an accept error is logged.
Every arm continues except when everything is pending. -/
def backendStep (b : RepBackend) (ev : BackendEvent) : RepBackend × BackendAction :=
  match ev with
  | BackendEvent.peerItem _peer (PeerMsg.ok request) =>
      let res := b.to_socket.trySend request
      (if res.2 then { b with to_socket := res.1 }
       else { b with to_socket := res.1,
                     droppedRequests := b.droppedRequests ++ [request] },
       BackendAction.cont)
  | BackendEvent.peerItem _peer PeerMsg.err => (b, BackendAction.cont)
  | BackendEvent.peerClosed peer =>
      ({ b with peer_states := b.peer_states.filter (fun a => a != peer) },
       BackendAction.cont)
  | BackendEvent.acceptConn addr =>
      ({ b with peer_states := insertPeer b.peer_states addr }, BackendAction.cont)
  | BackendEvent.acceptFail => (b, BackendAction.cont)
  | BackendEvent.allPending => (b, BackendAction.suspend)

/-- Outcome of polling the frontend as a `Stream`. -/
inductive PollOutcome where
  | panicked (msg : String)
  | ready (r : Option Request)
  | pendingRecv
deriving DecidableEq, Repr

/-- Outcome of `RepSocket::bind`. -/
inductive BindResult where
  | panicked
  | bindErr
  | bound
deriving DecidableEq, Repr

/-- The `RepSocket` frontend: `from_backend` models the receiver half of the
request channel (its queued requests), `transport` the stored transport. -/
structure RepSocketModel where
  from_backend : Option (List Request)
  transport : Option Unit
  local_addr : Option Addr
deriving DecidableEq, Repr

/-- `RepSocket::new(transport)`: inactive, transport stored. -/
def RepSocketModel.new : RepSocketModel :=
  { from_backend := none, transport := some (), local_addr := none }

/-- `<RepSocket as Stream>::poll_next`:
`self.from_backend.as_mut().expect("Inactive socket").poll_recv(cx)`. -/
def RepSocketModel.poll_next (s : RepSocketModel) : PollOutcome :=
  match s.from_backend with
  | none => PollOutcome.panicked "Inactive socket"
  | some [] => PollOutcome.pendingRecv
  | some (r :: _) => PollOutcome.ready (some r)

/-- `RepSocket::bind`: creates the channel, then
`self.transport.take().unwrap()` (panics when the transport was already
taken), then `transport.bind(addr)` — on error the method returns `Err`
with the transport already gone; on success it spawns the backend and sets
`local_addr` and `from_backend`. `transportBindSucceeds` stands for the
result of the underlying `transport.bind`. -/
def RepSocketModel.bind (s : RepSocketModel) (transportBindSucceeds : Bool) :
    RepSocketModel × BindResult :=
  match s.transport with
  | none => (s, BindResult.panicked)
  | some _ =>
    let taken := { s with transport := none }
    if transportBindSucceeds then
      ({ taken with from_backend := some [], local_addr := some 0 },
       BindResult.bound)
    else
      (taken, BindResult.bindErr)

/-- A frame arriving on a freshly accepted connection: the auth codec's
identity frame, or a data-codec frame. -/
inductive ConnFrame where
  | authFrame (identity : Bytes)
  | dataFrame (m : Message)
deriving DecidableEq, Repr

/-- Trace of the auth phase of one accepted connection: the identities the
authenticator was invoked on (in order), the ack byte written (auth codec:
1 = accepted, 0 = rejected), and whether the connection was promoted into
the peer map. -/
structure AcceptOutcome where
  authCalls : List Bytes
  ackByte : Option Nat
  inserted : Bool
deriving DecidableEq, Repr

/-- Modelled from the spec: the REP accept path with an authenticator
installed. `RepSocket::with_auth`, the `Authenticator` trait and the auth
handshake are absent from `src/msg-socket/src/rep/mod.rs` (only the example
binaries call them), so this follows the spec: read one auth frame, invoke
`Authenticator::authenticate(id) -> bool` once, write the ack byte
(1 accepted / 0 rejected), and drop the connection — never inserting it —
when rejected; a connection whose first frame is not an auth frame is a
decode failure in the auth phase: reject and close that connection only. -/
def acceptWithAuth (authenticate : Bytes → Bool) (frames : List ConnFrame) :
    AcceptOutcome :=
  match frames with
  | ConnFrame.authFrame identity :: _ =>
    let accepted := authenticate identity
    { authCalls := [identity],
      ackByte := some (if accepted then 1 else 0),
      inserted := accepted }
  | ConnFrame.dataFrame _ :: _ =>
    { authCalls := [], ackByte := none, inserted := false }
  | [] =>
    { authCalls := [], ackByte := none, inserted := false }

/-! ## Helper lemmas -/

/-- The per-peer accounting invariant: everything accepted by the wire sink
followed by what is still queued equals, in order, the log of join-set
completions pushed onto the egress queue. A loop iteration either continues
with the invariant intact, or returns — and then the wire trace is still a
prefix of the completion log (on a failed send the popped message and the
remaining queue form the missing suffix). -/
theorem stepIter_inv (st : PeerState) (inp : IterInput)
    (h : st.sent ++ st.egress_queue = st.completedLog) :
    ((stepIter st inp).1.sent ++ (stepIter st inp).1.egress_queue
        = (stepIter st inp).1.completedLog)
    ∨ ((stepIter st inp).2 ≠ none ∧
        ∃ tail, (stepIter st inp).1.completedLog
          = (stepIter st inp).1.sent ++ tail) := by
  unfold stepIter joinPollStep connPollStep
  by_cases hw : inp.writeReady
  · simp only [hw, if_true]
    cases hq : st.egress_queue with
    | nil =>
      cases hj : inp.join with
      | completed id payload => left; simp_all [← List.append_assoc]
      | joinErr => left; simp_all
      | droppedNone => cases hc : inp.conn <;> left <;> simp_all
      | notReady => cases hc : inp.conn <;> left <;> simp_all
    | cons m ms =>
      cases hs : inp.send with
      | ok => left; simp_all
      | err =>
        right
        refine ⟨by simp, ⟨m :: ms, ?_⟩⟩
        simp_all
  · simp only [hw, if_false]
    cases hj : inp.join with
    | completed id payload => left; simp_all [← List.append_assoc]
    | joinErr => left; simp_all
    | droppedNone => cases hc : inp.conn <;> left <;> simp_all
    | notReady => cases hc : inp.conn <;> left <;> simp_all

/-- Over any run of the poll loop that starts with the accounting invariant,
the wire trace ends up a prefix of the completion log. -/
theorem runIters_sent_prefix :
    ∀ (inputs : List IterInput) (st : PeerState),
      st.sent ++ st.egress_queue = st.completedLog →
      ∃ tail, (runIters st inputs).1.completedLog
        = (runIters st inputs).1.sent ++ tail := by
  intro inputs
  induction inputs with
  | nil =>
    intro st h
    exact ⟨st.egress_queue, by simpa [runIters] using h.symm⟩
  | cons inp rest ih =>
    intro st h
    have hd := stepIter_inv st inp h
    cases hstep : stepIter st inp with
    | mk st' o =>
      rw [hstep] at hd
      cases o with
      | none =>
        rcases hd with heq | ⟨hne, _⟩
        · simpa [runIters, hstep] using ih st' heq
        · exact absurd rfl hne
      | some r =>
        rcases hd with heq | ⟨_, hpre⟩
        · exact ⟨st'.egress_queue, by simpa [runIters, hstep] using heq.symm⟩
        · simpa [runIters, hstep] using hpre

/-- Deliver the result of a spawned response task to the session's join-set
poll: `Some((id, payload))` arrives as a completion, `None` (the response
sender was dropped) arrives as the `Ready(Some(Ok(None)))` arm. -/
def joinFromTask : Option (Nat × Bytes) → JoinPoll
  | some (id, payload) => JoinPoll.completed id payload
  | none => JoinPoll.droppedNone

/-! ## Claim theorems -/

/-- Claim C2: for every inbound request yielded to the frontend, exactly one
outcome occurs: either `respond` is called on it, the one-shot completes with
the payload, and a message carrying that request's id is appended to the back
of that peer's egress queue; or the `Request` is dropped without responding,
the join-set completion yields `None`, nothing is appended to the egress
queue, and the drop is silently ignored (the poll falls through and returns
`Pending` when nothing else is ready). -/
theorem rep_request_outcome_dichotomy (st : PeerState) (i : Nat) (p : Bytes)
    (f : Bool) (s : SendResult) :
    responseTask i (RequestOutcome.responded p) = some (i, p) ∧
    responseTask i RequestOutcome.droppedReq = none ∧
    stepIter st { flushOk := f, writeReady := false, send := s,
                  join := joinFromTask (responseTask i (RequestOutcome.responded p)),
                  conn := ConnPoll.notReady }
      = ({ st with egress_queue := st.egress_queue ++ [Message.new i p],
                   completedLog := st.completedLog ++ [Message.new i p] }, none) ∧
    stepIter st { flushOk := f, writeReady := false, send := s,
                  join := joinFromTask (responseTask i RequestOutcome.droppedReq),
                  conn := ConnPoll.notReady }
      = (st, some PollRes.pending) :=
  ⟨rfl, rfl, rfl, rfl⟩

/-- Claim C3: a request decoded with id `i` spawns a response task capturing
exactly `i` as `msg_id` and yields the request payload to the user; if the
user responds with payload `p`, the task completes with exactly `(i, p)` and
the reply message enqueued for the wire is `Message::new(i, p)` — the id is
echoed verbatim, unchanged by REP, together with the response payload. -/
theorem rep_reply_id_echoed_verbatim (st st2 : PeerState) (i : Nat)
    (pl p : Bytes) (f : Bool) (s : SendResult) :
    stepIter st { flushOk := f, writeReady := false, send := s,
                  join := JoinPoll.notReady, conn := ConnPoll.frame i pl }
      = (st, some (PollRes.yieldRequest i { source := st.addr, msg := pl })) ∧
    responseTask i (RequestOutcome.responded p) = some (i, p) ∧
    stepIter st2 { flushOk := f, writeReady := false, send := s,
                   join := joinFromTask (responseTask i (RequestOutcome.responded p)),
                   conn := ConnPoll.notReady }
      = ({ st2 with egress_queue := st2.egress_queue ++ [Message.new i p],
                    completedLog := st2.completedLog ++ [Message.new i p] }, none) ∧
    (Message.new i p).id = i ∧ (Message.new i p).payload = p :=
  ⟨rfl, rfl, rfl, rfl, rfl⟩

/-- Claim C5: with an authenticator installed, a new connection whose first
frame is the auth frame has `Authenticator::authenticate` invoked on the
identity exactly once, the ack byte written (1 accepted, 0 rejected), and is
inserted into the peer map exactly when the authenticator accepts — a
rejected connection is dropped and never inserted, before any data frame is
processed. Proved against the spec-modelled accept path `acceptWithAuth`
(the auth machinery is absent from `src/msg-socket/src/rep/mod.rs`). -/
theorem rep_auth_accept_spec_model (f : Bytes → Bool) (identity : Bytes)
    (rest : List ConnFrame) :
    acceptWithAuth f (ConnFrame.authFrame identity :: rest)
      = { authCalls := [identity],
          ackByte := some (if f identity then 1 else 0),
          inserted := f identity } :=
  rfl

/-- Claim C7: replies are written to the wire in the order their response
futures complete: each completion is appended to the back of the egress
queue and frames are sent by popping the front, so over any run of the poll
loop from a fresh session the wire trace (`sent`) is a prefix of the
completion trace (`completedLog`) — the wire carries the completed
responses in exactly completion order, not arrival order, truncated only by
messages not yet sent or a message lost to a terminal send error. -/
theorem rep_wire_order_eq_completion_order (a : Addr) (inputs : List IterInput) :
    ∃ tail, (runIters (PeerState.init a) inputs).1.completedLog
      = (runIters (PeerState.init a) inputs).1.sent ++ tail :=
  runIters_sent_prefix inputs (PeerState.init a) rfl

/-- Claim C9: polling a `RepSocket` as a `Stream` before a successful bind —
including after a bind attempt that failed in the transport — panics with
the message "Inactive socket" rather than returning `None` or an error. -/
theorem rep_poll_next_inactive_panics :
    RepSocketModel.new.poll_next = PollOutcome.panicked "Inactive socket" ∧
    ((RepSocketModel.new.bind false).1).poll_next
      = PollOutcome.panicked "Inactive socket" :=
  ⟨rfl, rfl⟩

/-- Claim C10: `RepSocket::bind` takes and unwraps the stored transport
before attempting to bind, so after any first `bind` call — successful or
not — the transport is gone and a second `bind` panics rather than
returning an error. -/
theorem rep_bind_twice_panics (b1 b2 : Bool) :
    ((RepSocketModel.new.bind b1).1).transport = none ∧
    (((RepSocketModel.new.bind b1).1).bind b2).2 = BindResult.panicked := by
  cases b1 <;> exact ⟨rfl, rfl⟩

/-- A backend whose frontend channel (capacity 1) already holds one request:
the channel is full. -/
def fullBackend : RepBackend :=
  { peer_states := [7],
    to_socket := { capacity := 1, queued := [{ source := 7, msg := [0] }],
                   closed := false },
    droppedRequests := [] }

/-- A request decoded by peer 7 while the frontend channel is full. -/
def lostRequest : Request := { source := 7, msg := [2, 3] }

/-- Claim C1 is false on the code: with the frontend channel full, the
backend forwards the decoded request with `try_send`, the send fails, the
result is discarded (`let _ = ...`), the request never reaches the channel,
and the backend `continue`s polling ingress — the request is lost. -/
theorem rep_backend_drops_request_when_channel_full_cex :
    (backendStep fullBackend (BackendEvent.peerItem 7 (PeerMsg.ok lostRequest))).2
      = BackendAction.cont ∧
    (backendStep fullBackend (BackendEvent.peerItem 7 (PeerMsg.ok lostRequest))).1.to_socket.queued
      = [{ source := 7, msg := [0] }] ∧
    (backendStep fullBackend (BackendEvent.peerItem 7 (PeerMsg.ok lostRequest))).1.droppedRequests
      = [lostRequest] := by
  decide

/-- Claim C1 amended: when the frontend request channel is full, the backend
does not stop polling ingress and does not preserve the request: it calls
`try_send`, discards the failure, drops the decoded request, and continues
polling. -/
theorem rep_backend_try_send_drop (b : RepBackend) (peer : Addr) (r : Request)
    (hopen : b.to_socket.closed = false)
    (hfull : b.to_socket.capacity ≤ b.to_socket.queued.length) :
    (backendStep b (BackendEvent.peerItem peer (PeerMsg.ok r))).2
      = BackendAction.cont ∧
    (backendStep b (BackendEvent.peerItem peer (PeerMsg.ok r))).1.to_socket
      = b.to_socket ∧
    (backendStep b (BackendEvent.peerItem peer (PeerMsg.ok r))).1.droppedRequests
      = b.droppedRequests ++ [r] := by
  have hts : b.to_socket.trySend r = (b.to_socket, false) := by
    unfold Channel.trySend
    simp [hopen, Nat.not_lt.mpr hfull]
  refine ⟨rfl, ?_, ?_⟩ <;> simp [backendStep, hts]

/-- A backend with an empty, zero-capacity (hence full) frontend channel. -/
def cap0Backend : RepBackend :=
  { peer_states := [],
    to_socket := { capacity := 0, queued := [], closed := false },
    droppedRequests := [] }

/-- A concrete request for the C1 witness. -/
def wreq1 : Request := { source := 3, msg := [1] }

/-- Witness for `rep_backend_try_send_drop` at a concrete full channel. -/
theorem rep_backend_try_send_drop_witness :
    (backendStep cap0Backend (BackendEvent.peerItem 3 (PeerMsg.ok wreq1))).2
      = BackendAction.cont ∧
    (backendStep cap0Backend (BackendEvent.peerItem 3 (PeerMsg.ok wreq1))).1.to_socket
      = cap0Backend.to_socket ∧
    (backendStep cap0Backend (BackendEvent.peerItem 3 (PeerMsg.ok wreq1))).1.droppedRequests
      = cap0Backend.droppedRequests ++ [wreq1] :=
  rep_backend_try_send_drop cap0Backend 3 wreq1 rfl (by decide)

/-- The peer-session iteration input for a read/decode error with nothing
else ready. -/
def decodeErrInput : IterInput :=
  { flushOk := true, writeReady := false, send := SendResult.ok,
    join := JoinPoll.notReady, conn := ConnPoll.decodeErr }

/-- A backend holding the single peer 7 with an open frontend channel. -/
def backend7 : RepBackend :=
  { peer_states := [7],
    to_socket := { capacity := 1024, queued := [], closed := false },
    droppedRequests := [] }

/-- Claim C4 is false on the code for the read/decode side: a codec error on
`conn.poll_next` is propagated by `?` as `Ready(Some(Err(e)))` — the stream
does not end — and the backend merely logs the error and `continue`s, so
peer 7 stays in the peer map. -/
theorem rep_decode_error_session_retained_cex :
    (stepIter (PeerState.init 7) decodeErrInput).2 = some PollRes.yieldErr ∧
    (stepIter (PeerState.init 7) decodeErrInput).2 ≠ some PollRes.closed ∧
    (backendStep backend7 (BackendEvent.peerItem 7 PeerMsg.err)).1.peer_states
      = [7] ∧
    (backendStep backend7 (BackendEvent.peerItem 7 PeerMsg.err)).2
      = BackendAction.cont := by
  decide

/-- Claim C4 amended: a write/encode error from `start_send` ends the peer
session (its stream returns `Ready(None)`, the popped message lost with the
failed send) and an ended stream is removed from the backend's map while
the backend continues; but a read/decode error does not close the session —
it is yielded as an `Err` item, which the backend logs before continuing
with the session still in the map — and flush errors are discarded without
any effect at all. -/
theorem rep_peer_error_transitions (st : PeerState) (inp : IterInput)
    (m : Message) (rest : List Message) (b : RepBackend) (p : Addr)
    (hw : inp.writeReady = true) (hq : st.egress_queue = m :: rest)
    (hs : inp.send = SendResult.err) :
    stepIter st inp = ({ st with egress_queue := rest }, some PollRes.closed) ∧
    p ∉ (backendStep b (BackendEvent.peerClosed p)).1.peer_states ∧
    (backendStep b (BackendEvent.peerClosed p)).2 = BackendAction.cont ∧
    (∀ f s, (stepIter st { flushOk := f, writeReady := false, send := s,
                           join := JoinPoll.notReady,
                           conn := ConnPoll.decodeErr }).2
              = some PollRes.yieldErr) ∧
    (backendStep b (BackendEvent.peerItem p PeerMsg.err)).1 = b ∧
    (backendStep b (BackendEvent.peerItem p PeerMsg.err)).2 = BackendAction.cont ∧
    (∀ f1 f2 w s j c,
      stepIter st { flushOk := f1, writeReady := w, send := s, join := j, conn := c }
        = stepIter st { flushOk := f2, writeReady := w, send := s, join := j, conn := c }) := by
  refine ⟨?_, ?_, rfl, fun f s => rfl, rfl, rfl, fun f1 f2 w s j c => rfl⟩
  · simp [stepIter, hw, hq, hs]
  · simp [backendStep, List.mem_filter]

/-- A session whose egress queue holds one message, for the C4 witness. -/
def egressSt : PeerState :=
  { addr := 7, egress_queue := [Message.new 1 []], sent := [], completedLog := [] }

/-- The iteration input in which the sink is ready and `start_send` fails. -/
def sendErrInput : IterInput :=
  { flushOk := true, writeReady := true, send := SendResult.err,
    join := JoinPoll.notReady, conn := ConnPoll.notReady }

/-- Witness for `rep_peer_error_transitions` at concrete inputs. -/
theorem rep_peer_error_transitions_witness :
    stepIter egressSt sendErrInput
      = ({ egressSt with egress_queue := [] }, some PollRes.closed) ∧
    (3 : Addr) ∉ (backendStep backend7 (BackendEvent.peerClosed 3)).1.peer_states ∧
    (backendStep backend7 (BackendEvent.peerClosed 3)).2 = BackendAction.cont ∧
    (stepIter egressSt { flushOk := true, writeReady := false,
                         send := SendResult.ok, join := JoinPoll.notReady,
                         conn := ConnPoll.decodeErr }).2
      = some PollRes.yieldErr ∧
    (backendStep backend7 (BackendEvent.peerItem 3 PeerMsg.err)).1 = backend7 ∧
    (backendStep backend7 (BackendEvent.peerItem 3 PeerMsg.err)).2
      = BackendAction.cont :=
  have h := rep_peer_error_transitions egressSt sendErrInput (Message.new 1 []) []
    backend7 3 rfl rfl rfl
  ⟨h.1, h.2.1, h.2.2.1, h.2.2.2.1 true SendResult.ok, h.2.2.2.2.1, h.2.2.2.2.2.1⟩

/-- A backend already holding one peer, facing a second connection, under a
configuration `max_connections = Some(1)`. -/
def onePeerBackend : RepBackend :=
  { peer_states := [3],
    to_socket := { capacity := 1024, queued := [], closed := false },
    droppedRequests := [] }

/-- Claim C6 fails on the code: `RepOptions.max_connections` exists but the
backend never receives the options (`RepBackend` has no options field), and
`poll_accept`'s `Ready(Ok(..))` arm inserts every accepted connection
unconditionally: with `max_connections = Some(1)` and one connected peer, a
second accepted connection is still inserted, giving 2 concurrent sessions. -/
theorem rep_max_connections_not_enforced :
    (RepOptions.mk true (some 1)).max_connections = some 1 ∧
    (backendStep onePeerBackend (BackendEvent.acceptConn 4)).1.peer_states
      = [3, 4] ∧
    (backendStep onePeerBackend (BackendEvent.acceptConn 4)).1.peer_states.length
      = 2 ∧
    (backendStep onePeerBackend (BackendEvent.acceptConn 4)).2
      = BackendAction.cont := by
  decide

/-- A backend whose frontend channel is closed (the frontend was dropped). -/
def closedChanBackend : RepBackend :=
  { peer_states := [],
    to_socket := { capacity := 1024, queued := [], closed := true },
    droppedRequests := [] }

/-- A concrete request for the C8 theorems. -/
def wreq8 : Request := { source := 7, msg := [1] }

/-- Claim C8 is false on the code: with the frontend channel closed, a
failed `try_send` is discarded and the backend `continue`s — it still
accepts new connections (peer 9 is inserted) instead of terminating. -/
theorem rep_backend_survives_frontend_close_cex :
    (backendStep closedChanBackend (BackendEvent.peerItem 7 (PeerMsg.ok wreq8))).2
      = BackendAction.cont ∧
    (backendStep closedChanBackend (BackendEvent.peerItem 7 (PeerMsg.ok wreq8))).2
      ≠ BackendAction.terminated ∧
    (backendStep closedChanBackend (BackendEvent.acceptConn 9)).1.peer_states
      = [9] ∧
    (backendStep closedChanBackend (BackendEvent.acceptConn 9)).2
      = BackendAction.cont := by
  decide

/-- Claim C8 amended: dropping the frontend (closing the request channel)
does not terminate the backend: no arm of `RepBackend::poll` returns
`Poll::Ready` at all; with the channel closed, a request forwarded with
`try_send` is silently dropped and the backend continues, and accepted
connections are still inserted. -/
theorem rep_backend_never_terminates (b : RepBackend) (ev : BackendEvent)
    (p : Addr) (r : Request) (hclosed : b.to_socket.closed = true) :
    (backendStep b ev).2 ≠ BackendAction.terminated ∧
    (backendStep b (BackendEvent.peerItem p (PeerMsg.ok r))).1.to_socket.queued
      = b.to_socket.queued ∧
    (backendStep b (BackendEvent.peerItem p (PeerMsg.ok r))).1.droppedRequests
      = b.droppedRequests ++ [r] ∧
    (∀ a, (backendStep b (BackendEvent.acceptConn a)).2 = BackendAction.cont) := by
  have hts : b.to_socket.trySend r = (b.to_socket, false) := by
    unfold Channel.trySend
    simp [hclosed]
  refine ⟨?_, ?_, ?_, fun a => rfl⟩
  · cases ev with
    | peerItem peer msg => cases msg <;> simp [backendStep]
    | peerClosed peer => simp [backendStep]
    | acceptConn a => simp [backendStep]
    | acceptFail => simp [backendStep]
    | allPending => simp [backendStep]
  · simp [backendStep, hts]
  · simp [backendStep, hts]

/-- Witness for `rep_backend_never_terminates` at a concrete closed-channel
backend. -/
theorem rep_backend_never_terminates_witness :
    (backendStep closedChanBackend BackendEvent.allPending).2
      ≠ BackendAction.terminated ∧
    (backendStep closedChanBackend (BackendEvent.peerItem 7 (PeerMsg.ok wreq8))).1.to_socket.queued
      = closedChanBackend.to_socket.queued ∧
    (backendStep closedChanBackend (BackendEvent.peerItem 7 (PeerMsg.ok wreq8))).1.droppedRequests
      = closedChanBackend.droppedRequests ++ [wreq8] ∧
    (backendStep closedChanBackend (BackendEvent.acceptConn 9)).2
      = BackendAction.cont :=
  have h := rep_backend_never_terminates closedChanBackend BackendEvent.allPending
    7 wreq8 rfl
  ⟨h.1, h.2.1, h.2.2.1, h.2.2.2 9⟩

end MsgRep
